import Mathlib

/-!
Verification of the faster-express scaffolding engine: a shallow embedding
of its configuration resolver (src/utils/prompts.ts), dependency matrix
(src/generators/packageJson.ts, src/generators/project.ts), artifact
content generators (src/generators/resourceFiles.ts,
src/generators/configFiles.ts) and project introspector
(src/commands/add.ts), with theorems settling the specified properties.

Conventions: JS objects whose key set matters are List (String × String)
with JS-assignment insertion semantics (objInsert); optional JS values are
Option; JS string union types are inductives; generated file contents are
List String of the template's lines (joined with newline by the *_content
wrappers); a JS member access on a possibly-undefined record (config.swagger)
is modelled by an Option-returning function, none standing for the TypeError.
-/

namespace FasterExpress

/-- Source dialect: the `language` field, 'ts' or 'js'. -/
inductive Language
| ts
| js
deriving DecidableEq, Repr

/-- Package manager variant. -/
inductive PkgManager
| npm
| yarn
| pnpm
deriving DecidableEq, Repr

/-- Architectural style. -/
inductive ProjStyle
| resource
| layered
deriving DecidableEq, Repr

/-- Database kind: the string union 'mongodb' | 'postgres' | 'none'.
The value Database.none models the literal string 'none'; an absent
(undefined) database is Option.none at the use sites. -/
inductive Database
| mongodb
| postgres
| none
deriving DecidableEq, Repr

/-- Adapter (ORM/ODM) kind. -/
inductive Orm
| mongoose
| prisma
| sequelize
| typeorm
deriving DecidableEq, Repr

/-- Auth kind: 'jwt' | 'passport' | 'none'; absent is Option.none. -/
inductive Auth
| jwt
| passport
| none
deriving DecidableEq, Repr

/-- Boilerplate depth. -/
inductive Boilerplate
| minimal
| full
| signatures
deriving DecidableEq, Repr

/-- The swagger sub-record (enabled flag and docs path) as the generators
read it (config.swagger.enabled, config.swagger.path). -/
structure SwaggerCfg where
  enabled : Bool
  path : String
deriving DecidableEq, Repr

/-- The canonical ProjectConfig record. The swagger field is Option since
the resolver (src/utils/prompts.ts) builds configs without it while the
generators read it. -/
structure ProjectConfig where
  name : String
  language : Language
  packageManager : PkgManager
  style : ProjStyle
  database : Option Database
  orm : Option Orm
  auth : Option Auth
  testing : Bool
  eslint : Bool
  prettier : Bool
  docker : Bool
  git : Bool
  light : Bool
  boilerplateLevel : Boilerplate
  includeValidation : Bool
  swagger : Option SwaggerCfg
deriving DecidableEq, Repr

/-- Per-resource configuration as returned by promptResourceConfig. -/
structure ResourceConfig where
  name : String
  generateTests : Bool
  withAuth : Bool
  boilerplateLevel : Boilerplate
  includeValidation : Bool
  customEndpoints : List String
deriving DecidableEq, Repr

/-- The options record handed to the resolver by the CLI layer: every field
either present (explicit) or absent. -/
structure CreateOptions where
  lang : Option Language
  pkgManager : Option PkgManager
  style : Option ProjStyle
  withDb : Option Bool
  db : Option Database
  orm : Option Orm
  withAuth : Option Bool
  auth : Option Auth
  withJest : Option Bool
  tests : Option Bool
  withEslint : Option Bool
  withPrettier : Option Bool
  withDocker : Option Bool
  git : Option Bool
  light : Option Bool
  boilerplate : Option Boilerplate
  validation : Option Bool
deriving DecidableEq, Repr

/-- Interactive answers for promptFullConfiguration: a field is some
exactly when its question was asked (see AnswersValid). -/
structure FullAnswers where
  language : Option Language
  packageManager : Option PkgManager
  style : Option ProjStyle
  boilerplateLevel : Option Boilerplate
  includeValidation : Option Bool
  database : Option Database
  orm : Option Orm
  auth : Option Auth
  testing : Option Bool
  eslint : Option Bool
  prettier : Option Bool
  docker : Option Bool
  git : Option Bool
deriving DecidableEq, Repr

/-- The interactive channel for promptProjectConfig: the light-mode answer,
the configure-more answer, and the full-flow answers. -/
structure PromptEnv where
  lightAnswer : Bool
  configureMore : Bool
  full : FullAnswers
deriving DecidableEq, Repr

/-- Capitalize the first character: resourceName.charAt(0).toUpperCase() +
resourceName.slice(1). -/
def capitalize (s : String) : String :=
  match s.data with
  | [] => s
  | c :: rest => String.mk (c.toUpper :: rest)

/-- JS object assignment obj[k] = v on a key/value list: update in place if
the key exists, else append. -/
def objInsert (m : List (String × String)) (k v : String) : List (String × String) :=
  if m.any (fun p => p.1 == k) then
    m.map (fun p => if p.1 == k then (k, v) else p)
  else m ++ [(k, v)]

/-- The key set (in order) of a JS object modelled as a key/value list. -/
def keysOf (m : List (String × String)) : List String :=
  m.map Prod.fst

/-- The compatibility table of section 3: document-store admits mongoose and
prisma, relational admits prisma, sequelize, typeorm. -/
def compatible (d : Database) (o : Orm) : Bool :=
  match d, o with
  | .mongodb, .mongoose => true
  | .mongodb, .prisma => true
  | .postgres, .prisma => true
  | .postgres, .sequelize => true
  | .postgres, .typeorm => true
  | _, _ => false

/-! ## Configuration resolver (src/utils/prompts.ts) -/

/-- createLightConfig: the fixed minimal ProjectConfig of the light flow. -/
def createLightConfig (projectName : String) (options : CreateOptions) : ProjectConfig :=
  { name := projectName
    language := options.lang.getD .ts
    packageManager := options.pkgManager.getD .npm
    style := .resource
    database := Option.none
    orm := Option.none
    auth := Option.none
    testing := false
    eslint := false
    prettier := false
    docker := false
    git := options.git ≠ some false
    light := true
    boilerplateLevel := .minimal
    includeValidation := false
    swagger := Option.none }

/-- createDefaultConfig: the default flow's ProjectConfig. -/
def createDefaultConfig (projectName : String) (options : CreateOptions) : ProjectConfig :=
  { name := projectName
    language := options.lang.getD .ts
    packageManager := options.pkgManager.getD .npm
    style := options.style.getD .resource
    database := Option.none
    orm := Option.none
    auth := Option.none
    testing := false
    eslint := false
    prettier := false
    docker := false
    git := options.git ≠ some false
    light := false
    boilerplateLevel := options.boilerplate.getD .full
    includeValidation := options.validation ≠ some false
    swagger := Option.none }

/-- The database value governing the ORM question: options.db ||
answers.database. -/
def dbEff (options : CreateOptions) (answers : FullAnswers) : Option Database :=
  match options.db with
  | some d => some d
  | Option.none => answers.database

/-- The ORM question's when-condition: db !== 'none' && !options.orm (a JS
undefined db passes the first test). -/
def ormAsked (options : CreateOptions) (answers : FullAnswers) : Bool :=
  (dbEff options answers ≠ some Database.none) && options.orm.isNone

/-- The ORM question's offered choices, keyed by the effective database. -/
def ormChoices (d : Option Database) : List Orm :=
  match d with
  | some .mongodb => [.mongoose, .prisma]
  | some .postgres => [.prisma, .sequelize, .typeorm]
  | _ => []

/-- An answers record is a possible inquirer outcome for the given options:
a field is some exactly when its question's condition held, and the ORM
answer is one of the offered choices. -/
def AnswersValid (options : CreateOptions) (answers : FullAnswers) : Prop :=
  (answers.language.isSome = options.lang.isNone) ∧
  (answers.packageManager.isSome = options.pkgManager.isNone) ∧
  (answers.style.isSome = options.style.isNone) ∧
  (answers.boilerplateLevel.isSome = options.boilerplate.isNone) ∧
  (answers.includeValidation.isSome = options.validation.isNone) ∧
  (answers.database.isSome = options.withDb.isNone) ∧
  (answers.orm.isSome = ormAsked options answers ∧
   answers.orm.all (fun o => (ormChoices (dbEff options answers)).contains o) = true) ∧
  (answers.auth.isSome = options.withAuth.isNone) ∧
  (answers.testing.isSome = (options.withJest.isNone && options.tests ≠ some false)) ∧
  (answers.eslint.isSome = options.withEslint.isNone) ∧
  (answers.prettier.isSome = options.withPrettier.isNone) ∧
  (answers.docker.isSome = options.withDocker.isNone) ∧
  (answers.git.isSome = (options.git ≠ some false))

instance decAnswersValid (options : CreateOptions) (answers : FullAnswers) :
    Decidable (AnswersValid options answers) := by
  unfold AnswersValid
  infer_instance

/-- promptFullConfiguration's final merge (lines 359-394 of the prompts
module): the pure combination of explicit options and collected answers. -/
def resolveFull (projectName : String) (options : CreateOptions)
    (answers : FullAnswers) : ProjectConfig :=
  let database : Option Database :=
    if options.withDb = some true then
      some (options.db.getD .mongodb)
    else
      match answers.database with
      | some Database.none => Option.none
      | some d => some d
      | Option.none => Option.none
  let auth : Option Auth :=
    if options.withAuth = some true then
      some (options.auth.getD .jwt)
    else
      match answers.auth with
      | some Auth.none => Option.none
      | some a => some a
      | Option.none => Option.none
  { name := projectName
    language := (options.lang <|> answers.language).getD .ts
    packageManager := (options.pkgManager <|> answers.packageManager).getD .npm
    style := (options.style <|> answers.style).getD .resource
    database := database
    orm := options.orm <|> answers.orm
    auth := auth
    testing :=
      if options.tests = some false then false
      else options.withJest = some true || answers.testing.getD false
    eslint := options.withEslint = some true || answers.eslint.getD false
    prettier := options.withPrettier = some true || answers.prettier.getD false
    docker := options.withDocker = some true || answers.docker.getD false
    git := if options.git = some false then false else answers.git ≠ some false
    light := false
    boilerplateLevel := (options.boilerplate <|> answers.boilerplateLevel).getD .full
    includeValidation :=
      if options.validation = some false then false
      else answers.includeValidation ≠ some false
    swagger := Option.none }

/-- The names of the questions promptFullConfiguration pushes and inquirer
actually asks (list built in source order; the ORM question's when gates it). -/
def fullQuestionNames (options : CreateOptions) (answers : FullAnswers) : List String :=
  (if options.lang.isNone then ["language"] else []) ++
  (if options.pkgManager.isNone then ["packageManager"] else []) ++
  (if options.style.isNone then ["style"] else []) ++
  (if options.boilerplate.isNone then ["boilerplateLevel"] else []) ++
  (if options.validation.isNone then ["includeValidation"] else []) ++
  (if options.withDb.isNone then ["database"] else []) ++
  (if ormAsked options answers then ["orm"] else []) ++
  (if options.withAuth.isNone then ["auth"] else []) ++
  (if options.withJest.isNone && options.tests ≠ some false then ["testing"] else []) ++
  (if options.withEslint.isNone then ["eslint"] else []) ++
  (if options.withPrettier.isNone then ["prettier"] else []) ++
  (if options.withDocker.isNone then ["docker"] else []) ++
  (if options.git ≠ some false then ["git"] else [])

/-- promptProjectConfig: dispatches the three flows and records which
interactive questions were asked. -/
def promptProjectConfig (projectName : String) (options : CreateOptions)
    (env : PromptEnv) : ProjectConfig × List String :=
  let lightMode := options.light.getD env.lightAnswer
  let qs0 : List String := if options.light.isNone then ["light"] else []
  if lightMode then
    (createLightConfig projectName options, qs0)
  else
    let qs1 := qs0 ++ ["configureMore"]
    if env.configureMore then
      (resolveFull projectName options env.full,
        qs1 ++ fullQuestionNames options env.full)
    else
      (createDefaultConfig projectName options, qs1)

/-! ## Dependency matrix (src/generators/project.ts, src/generators/packageJson.ts) -/

/-- getDatabaseDependencies: (runtime, dev) dependency names keyed by
database and ORM kinds. -/
def getDatabaseDependencies (database : Option Database) (orm : Option Orm) :
    List String × List String :=
  if database = Option.none ∨ database = some Database.none then ([], [])
  else
    match orm with
    | some .mongoose => (["mongoose"], ["@types/mongoose"])
    | some .prisma => (["@prisma/client"], ["prisma"])
    | some .sequelize =>
        (["sequelize"] ++ (if database = some .postgres then ["pg"] else []),
         ["@types/sequelize"] ++ (if database = some .postgres then ["@types/pg"] else []))
    | some .typeorm =>
        (["typeorm", "reflect-metadata"] ++
           (if database = some .postgres then ["pg"]
            else if database = some .mongodb then ["mongodb"] else []),
         if database = some .postgres then ["@types/pg"] else [])
    | Option.none => ([], [])

/-- getAuthDependencies: (runtime, dev) dependency names keyed by auth kind. -/
def getAuthDependencies (auth : Option Auth) : List String × List String :=
  match auth with
  | some .jwt =>
      (["jsonwebtoken", "bcryptjs"], ["@types/jsonwebtoken", "@types/bcryptjs"])
  | some .passport =>
      (["passport", "passport-local", "express-session"],
       ["@types/passport", "@types/passport-local", "@types/express-session"])
  | _ => ([], [])

/-- Insert each name with version "latest", as the forEach loops do. -/
def insertLatest (m : List (String × String)) (names : List String) :
    List (String × String) :=
  names.foldl (fun acc k => objInsert acc k "latest") m

/-- generateScripts: the manifest's scripts map. -/
def generateScripts (config : ProjectConfig) : List (String × String) :=
  let s : List (String × String) :=
    if config.language = .ts then
      [("build", "tsc"), ("start", "node dist/server.js"),
       ("dev", "ts-node src/server.ts"),
       ("dev:watch", "ts-node --transpile-only src/server.ts")]
    else
      [("start", "node src/server.js"), ("dev", "nodemon src/server.js")]
  let s :=
    if config.testing then
      objInsert (objInsert (objInsert s "test" "jest") "test:watch" "jest --watch")
        "test:coverage" "jest --coverage"
    else s
  let s :=
    if config.eslint then
      objInsert
        (objInsert s "lint"
          (if config.language = .ts then "eslint src/**/*.ts" else "eslint src/**/*.js"))
        "lint:fix"
        (if config.language = .ts then "eslint src/**/*.ts --fix" else "eslint src/**/*.js --fix")
    else s
  let s :=
    if config.prettier then
      objInsert s "format"
        (if config.language = .ts then "prettier --write src/**/*.ts"
         else "prettier --write src/**/*.js")
    else s
  let s :=
    if config.orm = some .prisma then
      objInsert (objInsert (objInsert (objInsert s "db:generate" "prisma generate")
        "db:push" "prisma db push") "db:migrate" "prisma migrate dev")
        "db:studio" "prisma studio"
    else s
  s

/-- generateDependencies: the manifest's runtime dependency map. Reads
config.swagger.enabled, hence Option: none models the TypeError raised when
the swagger sub-record is absent. -/
def generateDependencies (config : ProjectConfig) : Option (List (String × String)) :=
  match config.swagger with
  | Option.none => Option.none
  | some sw =>
    let deps : List (String × String) :=
      [("express", "^4.18.2"), ("cors", "^2.8.5"), ("helmet", "^7.0.0"),
       ("express-rate-limit", "^6.10.0")]
    let deps := objInsert deps "express-validator" "^7.0.1"
    let deps := insertLatest deps (getDatabaseDependencies config.database config.orm).1
    let deps := insertLatest deps (getAuthDependencies config.auth).1
    let deps :=
      if sw.enabled then
        objInsert (objInsert (objInsert deps "swagger-ui-express" "^5.0.0")
          "swagger-jsdoc" "^6.2.8") "yamljs" "^0.3.0"
      else deps
    some (objInsert deps "dotenv" "^16.3.1")

/-- generateDevDependencies: the manifest's dev dependency map. The ts
branch reads config.swagger.enabled (Option for the absent-record
TypeError); the js branch never touches it. -/
def generateDevDependencies (config : ProjectConfig) : Option (List (String × String)) :=
  let base : Option (List (String × String)) :=
    match config.language with
    | .ts =>
      match config.swagger with
      | Option.none => Option.none
      | some sw =>
        let d : List (String × String) :=
          [("typescript", "^5.1.6"), ("ts-node", "^10.9.1"),
           ("@types/node", "^20.5.0"), ("@types/express", "^4.17.17"),
           ("@types/cors", "^2.8.13")]
        some (if sw.enabled then
          objInsert (objInsert (objInsert d "@types/swagger-ui-express" "^4.1.3")
            "@types/swagger-jsdoc" "^6.0.1") "@types/yamljs" "^0.2.31"
        else d)
    | .js => some [("nodemon", "^3.0.1")]
  match base with
  | Option.none => Option.none
  | some d0 =>
    let d :=
      if config.testing then
        let d1 :=
          if config.language = .ts then
            objInsert (objInsert (objInsert d0 "jest" "^29.6.2") "@types/jest" "^29.5.4")
              "ts-jest" "^29.1.1"
          else objInsert d0 "jest" "^29.6.2"
        objInsert (objInsert d1 "supertest" "^6.3.3") "@types/supertest" "^2.0.12"
      else d0
    let d :=
      if config.eslint then
        let d1 := objInsert d "eslint" "^8.47.0"
        if config.language = .ts then
          objInsert (objInsert d1 "@typescript-eslint/eslint-plugin" "^6.4.0")
            "@typescript-eslint/parser" "^6.4.0"
        else d1
      else d
    let d :=
      if config.prettier then
        let d1 := objInsert d "prettier" "^3.0.2"
        if config.eslint then
          objInsert (objInsert d1 "eslint-config-prettier" "^9.0.0")
            "eslint-plugin-prettier" "^5.0.0"
        else d1
      else d
    let d := insertLatest d (getDatabaseDependencies config.database config.orm).2
    let d := insertLatest d (getAuthDependencies config.auth).2
    some d

/-- The generated package manifest's fields that the claims speak about. -/
structure PackageManifest where
  name : String
  main : String
  scripts : List (String × String)
  dependencies : List (String × String)
  devDependencies : List (String × String)
deriving DecidableEq, Repr

/-- generatePackageJson's manifest record: devDependencies are computed only
for the ts dialect and are the empty object for js. -/
def generatePackageJsonObj (config : ProjectConfig) : Option PackageManifest :=
  match generateDependencies config with
  | Option.none => Option.none
  | some deps =>
    let devDeps : Option (List (String × String)) :=
      if config.language = .ts then generateDevDependencies config else some []
    match devDeps with
    | Option.none => Option.none
    | some dd =>
      some { name := config.name
             main := if config.language = .ts then "dist/server.js" else "src/server.js"
             scripts := generateScripts config
             dependencies := deps
             devDependencies := dd }

/-! ## Generated artifact inventory (which files each pass writes) -/

/-- The artifact kinds the generation passes write, tagging each file write. -/
inductive Artifact
| packageJson
| appFile
| serverFile
| envFile
| envExample
| registerUtil
| errorHandlerMw
| authMw
| controller
| service
| routes
| validation
| indexFile
| model
| testFile
| tsconfig
| jestConfig
| eslintrc
| prettierrc
| prettierignore
| dockerfile
| dockerCompose
| dockerignore
| prismaSchema
| gitignore
deriving DecidableEq, Repr

/-- The dialect-driven file extension. -/
def ext (config : ProjectConfig) : String :=
  if config.language = .ts then ".ts" else ".js"

/-- The truthiness test `config.database && config.database !== 'none'`. -/
def dbOn (config : ProjectConfig) : Bool :=
  match config.database with
  | some .mongodb => true
  | some .postgres => true
  | _ => false

/-- The truthiness test `config.auth && config.auth !== 'none'`. -/
def authOn (config : ProjectConfig) : Bool :=
  match config.auth with
  | some .jwt => true
  | some .passport => true
  | _ => false

/-- generateResource's file writes, in source order: the five per-resource
artifacts, the model only when a database is enabled, the test file only
when both the resource and the project enable tests. -/
def resourceFileWrites (projectConfig : ProjectConfig)
    (resourceConfig : ResourceConfig) : List (Artifact × String) :=
  let dir := "src/resources/" ++ resourceConfig.name ++ "/"
  let e := ext projectConfig
  [(Artifact.controller, dir ++ "controller" ++ e),
   (Artifact.service, dir ++ "service" ++ e),
   (Artifact.routes, dir ++ "routes" ++ e),
   (Artifact.validation, dir ++ "validation" ++ e),
   (Artifact.indexFile, dir ++ "index" ++ e)] ++
  (if dbOn projectConfig then [(Artifact.model, dir ++ "model" ++ e)] else []) ++
  (if resourceConfig.generateTests && projectConfig.testing then
    [(Artifact.testFile, dir ++ resourceConfig.name ++ ".test" ++ e)] else [])

/-- generateConfigFiles' file writes (Promise.all over the pushed
generators, listed in push order): the prisma schema is keyed on the ORM
kind alone. -/
def configFileWrites (config : ProjectConfig) : List (Artifact × String) :=
  (if config.language = .ts then [(Artifact.tsconfig, "tsconfig.json")] else []) ++
  (if config.testing then [(Artifact.jestConfig, "jest.config.json")] else []) ++
  (if config.eslint then [(Artifact.eslintrc, ".eslintrc.json")] else []) ++
  (if config.prettier then
    [(Artifact.prettierrc, ".prettierrc"), (Artifact.prettierignore, ".prettierignore")]
   else []) ++
  (if config.docker then
    [(Artifact.dockerfile, "Dockerfile"), (Artifact.dockerCompose, "docker-compose.yml"),
     (Artifact.dockerignore, ".dockerignore")]
   else []) ++
  (if config.orm = some .prisma then [(Artifact.prismaSchema, "prisma/schema.prisma")] else []) ++
  [(Artifact.gitignore, ".gitignore")]

/-- generateResourceFiles' writes for a fresh project: the registration
utility, the middleware files, then the example user resource. -/
def resourceScaffoldWrites (config : ProjectConfig) : List (Artifact × String) :=
  let userResource : ResourceConfig :=
    { name := "user", generateTests := config.testing, withAuth := false,
      boilerplateLevel := config.boilerplateLevel,
      includeValidation := config.includeValidation, customEndpoints := [] }
  [(Artifact.registerUtil, "src/utils/registerResources" ++ ext config),
   (Artifact.errorHandlerMw, "src/middleware/errorHandler" ++ ext config)] ++
  (if authOn config then [(Artifact.authMw, "src/middleware/auth" ++ ext config)] else []) ++
  resourceFileWrites config userResource

/-- generateProject's file writes in pass order: manifest, app files,
resource scaffolding (resource style only), configuration files. -/
def projectFileWrites (config : ProjectConfig) : List (Artifact × String) :=
  [(Artifact.packageJson, "package.json"),
   (Artifact.appFile, "src/app" ++ ext config),
   (Artifact.serverFile, "src/server" ++ ext config),
   (Artifact.envFile, ".env"), (Artifact.envExample, ".env.example")] ++
  (if config.style = .resource then resourceScaffoldWrites config else []) ++
  configFileWrites config

/-! ## Command runs (src/commands/create.ts, src/commands/add.ts) -/

/-- The observable outcome of one command invocation: an exit code when
process.exit was reached, and the file writes performed before that. -/
structure RunResult where
  exitCode : Option Nat
  writes : List (Artifact × String)
deriving DecidableEq, Repr

/-- createProject after configuration resolution: the existing-directory
precondition is checked before any write; only on success does
generateProject write. -/
def createProjectRun (config : ProjectConfig) (projectDirExists : Bool) : RunResult :=
  if projectDirExists then { exitCode := some 1, writes := [] }
  else { exitCode := Option.none, writes := projectFileWrites config }

/-- addResource: the three precondition checks (package.json present, src
present, resource directory absent) run before any write; only on success
does generateResource write. -/
def addResourceRun (projectConfig : ProjectConfig) (resourceConfig : ResourceConfig)
    (pkgJsonExists srcExists resourceDirExists : Bool) : RunResult :=
  if !pkgJsonExists then { exitCode := some 1, writes := [] }
  else if !srcExists then { exitCode := some 1, writes := [] }
  else if resourceDirExists then { exitCode := some 1, writes := [] }
  else { exitCode := Option.none, writes := resourceFileWrites projectConfig resourceConfig }

/-! ## Project introspector (src/commands/add.ts) -/

/-- detectDatabase over the merged dependency name set
\x7b...dependencies, ...devDependencies\x7d. -/
def detectDatabase (deps : List String) : Database :=
  if deps.contains "mongoose" then .mongodb
  else if deps.contains "pg" || deps.contains "@prisma/client" then .postgres
  else Database.none

/-- detectORM over the merged dependency name set. -/
def detectORM (deps : List String) : Option Orm :=
  if deps.contains "mongoose" then some .mongoose
  else if deps.contains "@prisma/client" || deps.contains "prisma" then some .prisma
  else if deps.contains "sequelize" then some .sequelize
  else if deps.contains "typeorm" then some .typeorm
  else Option.none

/-- detectAuth over the merged dependency name set. -/
def detectAuth (deps : List String) : Auth :=
  if deps.contains "jsonwebtoken" then .jwt
  else if deps.contains "passport" then .passport
  else Auth.none

/-- The hasJest test: jest present among dev or runtime dependencies. -/
def hasJest (deps : List String) : Bool :=
  deps.contains "jest"

/-- The ProjectConfig addResource synthesizes from an existing project's
manifest dependency names and the presence of tsconfig.json. -/
def synthesizedProjectConfig (projectName : String) (deps : List String)
    (hasTsConfig : Bool) : ProjectConfig :=
  { name := projectName
    language := if hasTsConfig then .ts else .js
    packageManager := .npm
    style := .resource
    database := some (detectDatabase deps)
    orm := detectORM deps
    auth := some (detectAuth deps)
    testing := hasJest deps
    eslint := false
    prettier := false
    docker := false
    git := false
    light := false
    boilerplateLevel := .full
    includeValidation := true
    swagger := Option.none }

/-! ## Resource content generators (src/generators/resourceFiles.ts)

Each template literal is embedded as the list of its lines; the *_content
wrapper joins them with a newline, yielding the exact generated text. -/

/-- generateRoutesContent, as its lines. The auth import is appended to the
validation-import line, exactly as the template interpolates it; the
resource's customEndpoints field is never consulted. -/
def generateRoutesLines (projectConfig : ProjectConfig)
    (resourceConfig : ResourceConfig) : List String :=
  let n := resourceConfig.name
  let r := capitalize n
  let withA := resourceConfig.withAuth && authOn projectConfig
  let am := if withA then ", authenticateToken" else ""
  if projectConfig.language = .ts then
    let authImport :=
      if withA then "import \x7b authenticateToken \x7d from '../../middleware/auth';"
      else ""
    ["import \x7b Router \x7d from 'express';",
     "import \x7b " ++ r ++ "Controller \x7d from './controller';",
     "import \x7b validate" ++ r ++ " \x7d from './validation';" ++ authImport,
     "",
     "const router = Router();",
     "const " ++ n ++ "Controller = new " ++ r ++ "Controller();",
     "",
     "router.get('/', " ++ n ++ "Controller.getAll);",
     "router.get('/:id', " ++ n ++ "Controller.getById);",
     "router.post('/', validate" ++ r ++ am ++ ", " ++ n ++ "Controller.create);",
     "router.put('/:id', validate" ++ r ++ am ++ ", " ++ n ++ "Controller.update);",
     "router.delete('/:id'" ++ am ++ ", " ++ n ++ "Controller.delete);",
     "",
     "export default router;"]
  else
    let authImport :=
      if withA then "const \x7b authenticateToken \x7d = require('../../middleware/auth');"
      else ""
    ["const \x7b Router \x7d = require('express');",
     "const \x7b " ++ r ++ "Controller \x7d = require('./controller');",
     "const \x7b validate" ++ r ++ " \x7d = require('./validation');" ++ authImport,
     "",
     "const router = Router();",
     "const " ++ n ++ "Controller = new " ++ r ++ "Controller();",
     "",
     "router.get('/', " ++ n ++ "Controller.getAll);",
     "router.get('/:id', " ++ n ++ "Controller.getById);",
     "router.post('/', validate" ++ r ++ am ++ ", " ++ n ++ "Controller.create);",
     "router.put('/:id', validate" ++ r ++ am ++ ", " ++ n ++ "Controller.update);",
     "router.delete('/:id'" ++ am ++ ", " ++ n ++ "Controller.delete);",
     "",
     "module.exports = router;"]

/-- The routes artifact text. -/
def generateRoutesContent (projectConfig : ProjectConfig)
    (resourceConfig : ResourceConfig) : String :=
  String.intercalate "\n" (generateRoutesLines projectConfig resourceConfig)

/-- generateIndexContent, as its lines: the registration callable mounting
the resource's routes at /api/<name>s. -/
def generateIndexLines (projectConfig : ProjectConfig)
    (resourceConfig : ResourceConfig) : List String :=
  let n := resourceConfig.name
  let r := capitalize n
  if projectConfig.language = .ts then
    ["import \x7b Application \x7d from 'express';",
     "import " ++ n ++ "Routes from './routes';",
     "",
     "export default function register" ++ r ++ "Routes(app: Application): void \x7b",
     "  app.use('/api/" ++ n ++ "s', " ++ n ++ "Routes);",
     "\x7d"]
  else
    ["const " ++ n ++ "Routes = require('./routes');",
     "",
     "function register" ++ r ++ "Routes(app) \x7b",
     "  app.use('/api/" ++ n ++ "s', " ++ n ++ "Routes);",
     "\x7d",
     "",
     "module.exports = register" ++ r ++ "Routes;"]

/-- The index artifact text. -/
def generateIndexContent (projectConfig : ProjectConfig)
    (resourceConfig : ResourceConfig) : String :=
  String.intercalate "\n" (generateIndexLines projectConfig resourceConfig)

/-- generateServiceContent, as its lines: the model-backed body when a
database is enabled, else the in-memory demo store. The template prepends
the model import (empty when absent) and a blank line; neither branch
consults boilerplateLevel or customEndpoints. -/
def generateServiceLines (projectConfig : ProjectConfig)
    (resourceConfig : ResourceConfig) : List String :=
  let n := resourceConfig.name
  let r := capitalize n
  if dbOn projectConfig then
    if projectConfig.language = .ts then
      ["import \x7b " ++ r ++ "Model \x7d from './model';",
       "",
       "export class " ++ r ++ "Service \x7b",
       "  async findAll(): Promise<any[]> \x7b",
       "    return await " ++ r ++ "Model.find();",
       "  \x7d",
       "",
       "  async findById(id: string): Promise<any | null> \x7b",
       "    return await " ++ r ++ "Model.findById(id);",
       "  \x7d",
       "",
       "  async create(data: any): Promise<any> \x7b",
       "    return await " ++ r ++ "Model.create(data);",
       "  \x7d",
       "",
       "  async update(id: string, data: any): Promise<any | null> \x7b",
       "    return await " ++ r ++ "Model.findByIdAndUpdate(id, data, \x7b new: true \x7d);",
       "  \x7d",
       "",
       "  async delete(id: string): Promise<boolean> \x7b",
       "    const result = await " ++ r ++ "Model.findByIdAndDelete(id);",
       "    return !!result;",
       "  \x7d",
       "\x7d"]
    else
      ["const \x7b " ++ r ++ "Model \x7d = require('./model');",
       "",
       "class " ++ r ++ "Service \x7b",
       "  async findAll() \x7b",
       "    return await " ++ r ++ "Model.find();",
       "  \x7d",
       "",
       "  async findById(id) \x7b",
       "    return await " ++ r ++ "Model.findById(id);",
       "  \x7d",
       "",
       "  async create(data) \x7b",
       "    return await " ++ r ++ "Model.create(data);",
       "  \x7d",
       "",
       "  async update(id, data) \x7b",
       "    return await " ++ r ++ "Model.findByIdAndUpdate(id, data, \x7b new: true \x7d);",
       "  \x7d",
       "",
       "  async delete(id) \x7b",
       "    const result = await " ++ r ++ "Model.findByIdAndDelete(id);",
       "    return !!result;",
       "  \x7d",
       "\x7d",
       "",
       "module.exports = \x7b " ++ r ++ "Service \x7d;"]
  else
    if projectConfig.language = .ts then
      ["",
       "",
       "export class " ++ r ++ "Service \x7b",
       "  private " ++ n ++ "s: any[] = [];",
       "  private nextId = 1;",
       "",
       "  async findAll(): Promise<any[]> \x7b",
       "    return this." ++ n ++ "s;",
       "  \x7d",
       "",
       "  async findById(id: string): Promise<any | null> \x7b",
       "    return this." ++ n ++ "s.find(item => item.id === parseInt(id)) || null;",
       "  \x7d",
       "",
       "  async create(data: any): Promise<any> \x7b",
       "    const new" ++ r ++ " = \x7b id: this.nextId++, ...data, createdAt: new Date() \x7d;",
       "    this." ++ n ++ "s.push(new" ++ r ++ ");",
       "    return new" ++ r ++ ";",
       "  \x7d",
       "",
       "  async update(id: string, data: any): Promise<any | null> \x7b",
       "    const index = this." ++ n ++ "s.findIndex(item => item.id === parseInt(id));",
       "    if (index === -1) return null;",
       "    ",
       "    this." ++ n ++ "s[index] = \x7b ...this." ++ n ++ "s[index], ...data, updatedAt: new Date() \x7d;",
       "    return this." ++ n ++ "s[index];",
       "  \x7d",
       "",
       "  async delete(id: string): Promise<boolean> \x7b",
       "    const index = this." ++ n ++ "s.findIndex(item => item.id === parseInt(id));",
       "    if (index === -1) return false;",
       "    ",
       "    this." ++ n ++ "s.splice(index, 1);",
       "    return true;",
       "  \x7d",
       "\x7d"]
    else
      ["",
       "",
       "class " ++ r ++ "Service \x7b",
       "  constructor() \x7b",
       "    this." ++ n ++ "s = [];",
       "    this.nextId = 1;",
       "  \x7d",
       "",
       "  async findAll() \x7b",
       "    return this." ++ n ++ "s;",
       "  \x7d",
       "",
       "  async findById(id) \x7b",
       "    return this." ++ n ++ "s.find(item => item.id === parseInt(id)) || null;",
       "  \x7d",
       "",
       "  async create(data) \x7b",
       "    const new" ++ r ++ " = \x7b id: this.nextId++, ...data, createdAt: new Date() \x7d;",
       "    this." ++ n ++ "s.push(new" ++ r ++ ");",
       "    return new" ++ r ++ ";",
       "  \x7d",
       "",
       "  async update(id, data) \x7b",
       "    const index = this." ++ n ++ "s.findIndex(item => item.id === parseInt(id));",
       "    if (index === -1) return null;",
       "    ",
       "    this." ++ n ++ "s[index] = \x7b ...this." ++ n ++ "s[index], ...data, updatedAt: new Date() \x7d;",
       "    return this." ++ n ++ "s[index];",
       "  \x7d",
       "",
       "  async delete(id) \x7b",
       "    const index = this." ++ n ++ "s.findIndex(item => item.id === parseInt(id));",
       "    if (index === -1) return false;",
       "    ",
       "    this." ++ n ++ "s.splice(index, 1);",
       "    return true;",
       "  \x7d",
       "\x7d",
       "",
       "module.exports = \x7b " ++ r ++ "Service \x7d;"]

/-- The service artifact text. -/
def generateServiceContent (projectConfig : ProjectConfig)
    (resourceConfig : ResourceConfig) : String :=
  String.intercalate "\n" (generateServiceLines projectConfig resourceConfig)

/-! ## Concrete fixtures used by the theorems and witnesses -/

/-- An answers record with every question unanswered. -/
def ansNone : FullAnswers :=
  { language := Option.none, packageManager := Option.none, style := Option.none,
    boilerplateLevel := Option.none, includeValidation := Option.none,
    database := Option.none, orm := Option.none, auth := Option.none,
    testing := Option.none, eslint := Option.none, prettier := Option.none,
    docker := Option.none, git := Option.none }

/-- A fully explicit options record carrying the light flag plus many other
explicit flags that light mode must ignore. -/
def optsLight : CreateOptions :=
  { lang := some .js, pkgManager := some .yarn, style := some .layered,
    withDb := some true, db := some .postgres, orm := some .prisma,
    withAuth := some true, auth := some .passport, withJest := some true,
    tests := some true, withEslint := some true, withPrettier := some true,
    withDocker := some true, git := some true, light := some true,
    boilerplate := some .full, validation := some true }

/-- A prompt environment whose answers would enable everything, to show the
light flow never consults it. -/
def envAll : PromptEnv :=
  { lightAnswer := false, configureMore := true, full := ansNone }

/-- A TypeScript project config with JWT auth and no database. -/
def cfgAuthTs : ProjectConfig :=
  { name := "shop", language := .ts, packageManager := .npm, style := .resource,
    database := Option.none, orm := Option.none, auth := some .jwt, testing := false,
    eslint := false, prettier := false, docker := false, git := true, light := false,
    boilerplateLevel := .full, includeValidation := true, swagger := Option.none }

/-- A post resource requesting two custom endpoints. -/
def postWithEndpoints : ResourceConfig :=
  { name := "post", generateTests := false, withAuth := true,
    boilerplateLevel := .full, includeValidation := true,
    customEndpoints := ["activate", "deactivate"] }

/-- The same post resource with no custom endpoints. -/
def postNoEndpoints : ResourceConfig :=
  { postWithEndpoints with customEndpoints := [] }

/-- An order resource at signature-only boilerplate depth. -/
def orderSignatures : ResourceConfig :=
  { name := "order", generateTests := false, withAuth := false,
    boilerplateLevel := .signatures, includeValidation := true,
    customEndpoints := [] }

/-- The same order resource at full boilerplate depth. -/
def orderFull : ResourceConfig :=
  { orderSignatures with boilerplateLevel := .full }

/-- A JavaScript project using postgres with prisma. -/
def cfgJsPrisma : ProjectConfig :=
  { name := "shop", language := .js, packageManager := .npm, style := .resource,
    database := some .postgres, orm := some .prisma, auth := Option.none,
    testing := true, eslint := false, prettier := false, docker := false,
    git := true, light := false, boilerplateLevel := .full,
    includeValidation := true, swagger := some { enabled := false, path := "/docs" } }

/-! ## Theorems -/

/-- C2: with the light flag explicitly true, resolution yields the fixed
minimal ProjectConfig — testing, eslint, prettier, docker all false,
database, orm and auth absent, minimal boilerplate, validation off —
independent of every other flag, and asks no interactive question. -/
theorem light_flag_forces_minimal_config
    (projectName : String) (options : CreateOptions) (env : PromptEnv)
    (h : options.light = some true) :
    ((promptProjectConfig projectName options env).1.testing = false ∧
     (promptProjectConfig projectName options env).1.eslint = false ∧
     (promptProjectConfig projectName options env).1.prettier = false ∧
     (promptProjectConfig projectName options env).1.docker = false ∧
     (promptProjectConfig projectName options env).1.database = Option.none ∧
     (promptProjectConfig projectName options env).1.orm = Option.none ∧
     (promptProjectConfig projectName options env).1.auth = Option.none ∧
     (promptProjectConfig projectName options env).1.boilerplateLevel = Boilerplate.minimal ∧
     (promptProjectConfig projectName options env).1.includeValidation = false) ∧
    (promptProjectConfig projectName options env).2 = [] := by
  simp [promptProjectConfig, h, createLightConfig]

/-- Witness for C2 at a concrete options record that also carries explicit
database, auth, testing, lint, format and docker flags. -/
theorem light_flag_forces_minimal_config_witness :
    (((promptProjectConfig "shop" optsLight envAll).1.testing = false ∧
      (promptProjectConfig "shop" optsLight envAll).1.eslint = false ∧
      (promptProjectConfig "shop" optsLight envAll).1.prettier = false ∧
      (promptProjectConfig "shop" optsLight envAll).1.docker = false ∧
      (promptProjectConfig "shop" optsLight envAll).1.database = Option.none ∧
      (promptProjectConfig "shop" optsLight envAll).1.orm = Option.none ∧
      (promptProjectConfig "shop" optsLight envAll).1.auth = Option.none ∧
      (promptProjectConfig "shop" optsLight envAll).1.boilerplateLevel = Boilerplate.minimal ∧
      (promptProjectConfig "shop" optsLight envAll).1.includeValidation = false) ∧
     (promptProjectConfig "shop" optsLight envAll).2 = []) :=
  light_flag_forces_minimal_config "shop" optsLight envAll rfl

/-- C9: a create invocation whose project directory already exists, and an
add invocation whose resource directory already exists, both exit with
status 1 before performing any file write. -/
theorem precondition_violation_exits_without_writes
    (projectConfig config2 : ProjectConfig) (resourceConfig : ResourceConfig)
    (pkgJsonExists srcExists : Bool) :
    createProjectRun config2 true = { exitCode := some 1, writes := [] } ∧
    addResourceRun projectConfig resourceConfig pkgJsonExists srcExists true =
      { exitCode := some 1, writes := [] } := by
  refine ⟨rfl, ?_⟩
  cases pkgJsonExists <;> cases srcExists <;> rfl

/-- C10: the ProjectConfig synthesized by addResource from an existing
project fixes packageManager npm, resource style, full boilerplate,
validation on, and eslint, prettier, docker, git, light all false,
whatever the manifest dependencies and tsconfig presence say. -/
theorem add_resource_synthesized_config_constants
    (projectName : String) (deps : List String) (hasTsConfig : Bool) :
    (synthesizedProjectConfig projectName deps hasTsConfig).packageManager = PkgManager.npm ∧
    (synthesizedProjectConfig projectName deps hasTsConfig).style = ProjStyle.resource ∧
    (synthesizedProjectConfig projectName deps hasTsConfig).boilerplateLevel = Boilerplate.full ∧
    (synthesizedProjectConfig projectName deps hasTsConfig).includeValidation = true ∧
    (synthesizedProjectConfig projectName deps hasTsConfig).eslint = false ∧
    (synthesizedProjectConfig projectName deps hasTsConfig).prettier = false ∧
    (synthesizedProjectConfig projectName deps hasTsConfig).docker = false ∧
    (synthesizedProjectConfig projectName deps hasTsConfig).git = false ∧
    (synthesizedProjectConfig projectName deps hasTsConfig).light = false :=
  ⟨rfl, rfl, rfl, rfl, rfl, rfl, rfl, rfl, rfl⟩

/-- C3 (code bug): the route generator never consults customEndpoints — the
artifact for a resource declaring custom endpoints is byte-identical to the
one without them, and its router lines are exactly the five standard
routes, mounted at /api/posts by the index artifact. -/
theorem routes_ignore_custom_endpoints :
    generateRoutesContent cfgAuthTs postWithEndpoints =
      generateRoutesContent cfgAuthTs postNoEndpoints ∧
    generateIndexContent cfgAuthTs postWithEndpoints =
      generateIndexContent cfgAuthTs postNoEndpoints ∧
    ((generateRoutesLines cfgAuthTs postWithEndpoints).filter
        (fun l => l.data.take 7 = "router.".data)) =
      ["router.get('/', postController.getAll);",
       "router.get('/:id', postController.getById);",
       "router.post('/', validatePost, authenticateToken, postController.create);",
       "router.put('/:id', validatePost, authenticateToken, postController.update);",
       "router.delete('/:id', authenticateToken, postController.delete);"] ∧
    "  app.use('/api/posts', postRoutes);" ∈
      generateIndexLines cfgAuthTs postWithEndpoints := by
  refine ⟨rfl, rfl, ?_, ?_⟩ <;> decide

/-- C4 (code bug): the service generator never consults boilerplateLevel —
at signatures depth it emits the very same full in-memory implementation
(array store and push logic included) as at full depth. -/
theorem service_ignores_boilerplate_level :
    generateServiceContent cfgAuthTs orderSignatures =
      generateServiceContent cfgAuthTs orderFull ∧
    "  private orders: any[] = [];" ∈ generateServiceLines cfgAuthTs orderSignatures ∧
    "    this.orders.push(newOrder);" ∈ generateServiceLines cfgAuthTs orderSignatures := by
  refine ⟨rfl, ?_, ?_⟩ <;> decide

/-- C5 (code bug): for a js-dialect project with the prisma adapter the
manifest's dev-dependency map is the empty object — it lacks the adapter's
dev dependency 'prisma' — while the runtime map has '@prisma/client' and
the dev script references the undeclared nodemon. -/
theorem js_manifest_drops_dev_dependencies :
    ∃ pj, generatePackageJsonObj cfgJsPrisma = some pj ∧
      pj.devDependencies = [] ∧
      "prisma" ∉ keysOf pj.devDependencies ∧
      "@prisma/client" ∈ keysOf pj.dependencies ∧
      ("dev", "nodemon src/server.js") ∈ pj.scripts := by
  refine ⟨_, rfl, rfl, ?_, ?_, ?_⟩ <;> decide

/-- C8: the introspector's dependency signatures — mongoose implies
(mongodb, mongoose); pg or the prisma client, absent mongoose, implies
postgres (prisma when its client is present); jsonwebtoken implies jwt;
passport without jsonwebtoken implies passport; and with no recognized
signature it reports no database, no auth and no testing, never an error. -/
theorem introspector_signatures (deps : List String) :
    ("mongoose" ∈ deps →
      detectDatabase deps = Database.mongodb ∧ detectORM deps = some Orm.mongoose) ∧
    ("mongoose" ∉ deps →
      ("pg" ∈ deps ∨ "@prisma/client" ∈ deps) →
      detectDatabase deps = Database.postgres ∧
      ("@prisma/client" ∈ deps → detectORM deps = some Orm.prisma)) ∧
    ("jsonwebtoken" ∈ deps → detectAuth deps = Auth.jwt) ∧
    ("jsonwebtoken" ∉ deps → "passport" ∈ deps →
      detectAuth deps = Auth.passport) ∧
    ("mongoose" ∉ deps → "pg" ∉ deps →
      "@prisma/client" ∉ deps → "jsonwebtoken" ∉ deps →
      "passport" ∉ deps → "jest" ∉ deps →
      detectDatabase deps = Database.none ∧ detectAuth deps = Auth.none ∧
      hasJest deps = false) := by
  refine ⟨?_, ?_, ?_, ?_, ?_⟩
  · intro h
    simp [detectDatabase, detectORM, h]
  · intro h1 h2
    constructor
    · rcases h2 with h | h <;> simp [detectDatabase, h1, h]
    · intro h3
      simp [detectORM, h1, h3]
  · intro h
    simp [detectAuth, h]
  · intro h1 h2
    simp [detectAuth, h1, h2]
  · intro h1 h2 h3 h4 h5 h6
    refine ⟨?_, ?_, ?_⟩ <;> simp [detectDatabase, detectAuth, hasJest, h1, h2, h3, h4, h5, h6]

/-- The dependency computation reads only the database, orm, auth and
swagger fields of the configuration. -/
theorem generateDependencies_fields (nm : String) (lg : Language) (pm : PkgManager)
    (st : ProjStyle) (db : Option Database) (orm : Option Orm) (auth : Option Auth)
    (tst esl prt dck gt lt : Bool) (bl : Boilerplate) (iv : Bool)
    (en : Bool) (pth : String) :
    generateDependencies
      ⟨nm, lg, pm, st, db, orm, auth, tst, esl, prt, dck, gt, lt, bl, iv,
        some ⟨en, pth⟩⟩ =
    generateDependencies
      ⟨"", .ts, .npm, .resource, db, orm, auth, false, false, false, false, false,
        false, .full, false, some ⟨en, ""⟩⟩ := rfl

/-- C7: for every configuration whose swagger record is present, the
dependency computation yields a result (no throw) whose runtime keys always
include the baseline express, cors, helmet, express-rate-limit and dotenv,
and for postgres with prisma include the prisma client and not mongoose. -/
theorem dependency_matrix_total_baseline
    (config : ProjectConfig) (sw : SwaggerCfg) (h : config.swagger = some sw) :
    (generateDependencies config).isSome = true ∧
    ("express" ∈ keysOf ((generateDependencies config).getD []) ∧
     "cors" ∈ keysOf ((generateDependencies config).getD []) ∧
     "helmet" ∈ keysOf ((generateDependencies config).getD []) ∧
     "express-rate-limit" ∈ keysOf ((generateDependencies config).getD []) ∧
     "dotenv" ∈ keysOf ((generateDependencies config).getD [])) ∧
    (config.database = some Database.postgres → config.orm = some Orm.prisma →
      "@prisma/client" ∈ keysOf ((generateDependencies config).getD []) ∧
      "mongoose" ∉ keysOf ((generateDependencies config).getD [])) := by
  obtain ⟨nm, lg, pm, st, db, orm, auth, tst, esl, prt, dck, gt, lt, bl, iv, sg⟩ := config
  dsimp only at h ⊢
  subst h
  obtain ⟨en, pth⟩ := sw
  rw [generateDependencies_fields]
  rcases db with _ | (_ | _ | _) <;> rcases orm with _ | (_ | _ | _ | _) <;>
    rcases auth with _ | (_ | _ | _) <;> cases en <;> decide

/-- A postgres-with-prisma configuration with documentation enabled. -/
def cfgPgPrisma : ProjectConfig :=
  { name := "shop", language := .ts, packageManager := .npm, style := .resource,
    database := some .postgres, orm := some .prisma, auth := some .jwt,
    testing := true, eslint := true, prettier := true, docker := true,
    git := true, light := false, boilerplateLevel := .full,
    includeValidation := true, swagger := some { enabled := true, path := "/docs" } }

/-- Witness for C7 at the postgres-with-prisma configuration. -/
theorem dependency_matrix_total_baseline_witness :
    (generateDependencies cfgPgPrisma).isSome = true ∧
    ("express" ∈ keysOf ((generateDependencies cfgPgPrisma).getD []) ∧
     "cors" ∈ keysOf ((generateDependencies cfgPgPrisma).getD []) ∧
     "helmet" ∈ keysOf ((generateDependencies cfgPgPrisma).getD []) ∧
     "express-rate-limit" ∈ keysOf ((generateDependencies cfgPgPrisma).getD []) ∧
     "dotenv" ∈ keysOf ((generateDependencies cfgPgPrisma).getD [])) ∧
    (cfgPgPrisma.database = some Database.postgres → cfgPgPrisma.orm = some Orm.prisma →
      "@prisma/client" ∈ keysOf ((generateDependencies cfgPgPrisma).getD []) ∧
      "mongoose" ∉ keysOf ((generateDependencies cfgPgPrisma).getD [])) :=
  dependency_matrix_total_baseline cfgPgPrisma { enabled := true, path := "/docs" } rfl

/-- The options record of the C1 counterexample: everything explicit, with
the incompatible pair database mongodb and adapter typeorm. -/
def optsC1 : CreateOptions :=
  { lang := some .ts, pkgManager := some .npm, style := some .resource,
    withDb := some true, db := some .mongodb, orm := some .typeorm,
    withAuth := some false, auth := Option.none, withJest := some false,
    tests := some true, withEslint := some false, withPrettier := some false,
    withDocker := some false, git := some false, light := some false,
    boilerplate := some .full, validation := some true }

/-- The prompt environment of the C1 counterexample: configure-more
answered yes, no full-flow question answered (none is asked). -/
def envC1 : PromptEnv :=
  { lightAnswer := false, configureMore := true, full := ansNone }

/-- C1 counterexample: with database mongodb and adapter typeorm both
explicit — a pair outside the compatibility table — resolution is a valid
interactive run that succeeds and returns exactly that pair, instead of
failing. -/
theorem resolver_accepts_incompatible_explicit_pair :
    AnswersValid optsC1 ansNone ∧
    (promptProjectConfig "shop" optsC1 envC1).1.database = some Database.mongodb ∧
    (promptProjectConfig "shop" optsC1 envC1).1.orm = some Orm.typeorm ∧
    compatible Database.mongodb Orm.typeorm = false := by
  refine ⟨?_, rfl, rfl, rfl⟩
  decide

/-- C1 amended: the resolver never rejects a pair. An explicit adapter kind
is kept unchanged in the full flow (never silently replaced), and only a
pair in which database and adapter are both chosen interactively (no
explicit db, orm or with-db flag) is guaranteed to lie in the
compatibility table. -/
theorem resolver_orm_explicit_kept_interactive_compatible
    (projectName : String) (options : CreateOptions) (answers : FullAnswers)
    (o : Orm) (d : Database) (hv : AnswersValid options answers) :
    (options.orm = some o → (resolveFull projectName options answers).orm = some o) ∧
    (options.orm = Option.none → options.db = Option.none →
      options.withDb = Option.none →
      (resolveFull projectName options answers).database = some d →
      (resolveFull projectName options answers).orm = some o →
      compatible d o = true) := by
  obtain ⟨-, -, -, -, -, -, hOrm, -⟩ := hv
  constructor
  · intro h
    simp [resolveFull, h]
  · intro ho hdb hwdb hD hO
    obtain ⟨-, hAll⟩ := hOrm
    simp only [resolveFull, hwdb, ho, if_neg, Option.none_orElse] at hD hO
    rw [hO] at hAll
    simp at hAll
    have hmem := hAll
    unfold dbEff at hmem
    rw [hdb] at hmem
    have hwdb' : ¬((Option.none : Option Bool) = some true) := by simp
    rw [if_neg hwdb'] at hD
    rcases hAns : answers.database with _ | dd
    · rw [hAns] at hD
      simp at hD
    · rw [hAns] at hD hmem
      cases dd
      · cases hD
        simp [ormChoices] at hmem
        rcases hmem with rfl | rfl <;> rfl
      · cases hD
        simp [ormChoices] at hmem
        rcases hmem with rfl | rfl | rfl <;> rfl
      · simp at hD

/-- The options of the C1 witness: everything explicit, adapter mongoose. -/
def optsC1w : CreateOptions :=
  { optsC1 with db := Option.none, withDb := Option.none, orm := some .mongoose }

/-- Answers for the C1 witness: only the database question is asked and it
is answered with none. -/
def ansNoneDb : FullAnswers :=
  { ansNone with database := some Database.none }

/-- Witness for the C1 amended theorem: with an explicit mongoose adapter
the resolved config keeps exactly that adapter. -/
theorem resolver_orm_kept_witness :
    (optsC1w.orm = some Orm.mongoose →
      (resolveFull "shop" optsC1w ansNoneDb).orm = some Orm.mongoose) ∧
    (optsC1w.orm = Option.none → optsC1w.db = Option.none →
      optsC1w.withDb = Option.none →
      (resolveFull "shop" optsC1w ansNoneDb).database = some Database.mongodb →
      (resolveFull "shop" optsC1w ansNoneDb).orm = some Orm.mongoose →
      compatible Database.mongodb Orm.mongoose = true) :=
  resolver_orm_explicit_kept_interactive_compatible "shop" optsC1w ansNoneDb
    Orm.mongoose Database.mongodb (by decide)

/-- The options of the C6 counterexample: an explicit prisma adapter with
no database flag at all. -/
def optsC6 : CreateOptions :=
  { lang := some .ts, pkgManager := some .npm, style := some .resource,
    withDb := Option.none, db := Option.none, orm := some .prisma,
    withAuth := some false, auth := Option.none, withJest := some false,
    tests := some true, withEslint := some false, withPrettier := some false,
    withDocker := some false, git := some false, light := some false,
    boilerplate := some .full, validation := some true }

/-- The prompt environment of the C6 counterexample: the database question
is answered with none; the adapter question is skipped (explicit flag). -/
def envC6 : PromptEnv :=
  { lightAnswer := false, configureMore := true,
    full := { ansNone with database := some Database.none } }

/-- C6 counterexample: a valid resolution run with an explicit prisma
adapter and the database answered none yields a config with no database
kind but adapter prisma, for which the manifest carries the prisma
schema-management scripts and the prisma schema file is generated. -/
theorem explicit_orm_without_database_produces_prisma_artifacts :
    AnswersValid optsC6 envC6.full ∧
    (promptProjectConfig "shop" optsC6 envC6).1.database = Option.none ∧
    (promptProjectConfig "shop" optsC6 envC6).1.orm = some Orm.prisma ∧
    "db:generate" ∈ keysOf (generateScripts (promptProjectConfig "shop" optsC6 envC6).1) ∧
    (Artifact.prismaSchema, "prisma/schema.prisma") ∈
      configFileWrites (promptProjectConfig "shop" optsC6 envC6).1 := by
  refine ⟨by decide, rfl, rfl, ?_, ?_⟩ <;> decide

/-- The configuration-file inventory reads only the language, testing,
eslint, prettier, docker and orm fields. -/
theorem configFileWrites_fields (nm : String) (lg : Language) (pm : PkgManager)
    (st : ProjStyle) (db : Option Database) (orm : Option Orm) (auth : Option Auth)
    (tst esl prt dck gt lt : Bool) (bl : Boilerplate) (iv : Bool)
    (sg : Option SwaggerCfg) :
    configFileWrites
      ⟨nm, lg, pm, st, db, orm, auth, tst, esl, prt, dck, gt, lt, bl, iv, sg⟩ =
    configFileWrites
      ⟨"", lg, .npm, .resource, Option.none, orm, Option.none, tst, esl, prt, dck,
        false, false, .full, false, Option.none⟩ := rfl

/-- The scripts map reads only the language, testing, eslint, prettier and
orm fields. -/
theorem generateScripts_fields (nm : String) (lg : Language) (pm : PkgManager)
    (st : ProjStyle) (db : Option Database) (orm : Option Orm) (auth : Option Auth)
    (tst esl prt dck gt lt : Bool) (bl : Boilerplate) (iv : Bool)
    (sg : Option SwaggerCfg) :
    generateScripts
      ⟨nm, lg, pm, st, db, orm, auth, tst, esl, prt, dck, gt, lt, bl, iv, sg⟩ =
    generateScripts
      ⟨"", lg, .npm, .resource, Option.none, orm, Option.none, tst, esl, prt, false,
        false, false, .full, false, Option.none⟩ := rfl

/-- C6 amended: with no database enabled no model artifact is written for
any resource, but the adapter kind can still be present, and the prisma
schema file and the schema-management scripts are keyed on the adapter kind
alone, irrespective of the database kind. -/
theorem no_database_no_model_artifact_prisma_keyed_on_orm
    (config : ProjectConfig) (resourceConfig : ResourceConfig) (p : String)
    (h : dbOn config = false) :
    ((Artifact.model, p) ∉ resourceFileWrites config resourceConfig) ∧
    ((Artifact.prismaSchema, "prisma/schema.prisma") ∈ configFileWrites config ↔
      config.orm = some Orm.prisma) ∧
    ("db:generate" ∈ keysOf (generateScripts config) ↔
      config.orm = some Orm.prisma) := by
  refine ⟨?_, ?_, ?_⟩
  · rcases hb : resourceConfig.generateTests && config.testing <;>
      simp [resourceFileWrites, h, hb]
  · obtain ⟨nm, lg, pm, st, db, orm, auth, tst, esl, prt, dck, gt, lt, bl, iv, sg⟩ := config
    dsimp only
    rw [configFileWrites_fields]
    cases lg <;> cases tst <;> cases esl <;> cases prt <;> cases dck <;>
      rcases orm with _ | (_ | _ | _ | _) <;> decide
  · obtain ⟨nm, lg, pm, st, db, orm, auth, tst, esl, prt, dck, gt, lt, bl, iv, sg⟩ := config
    dsimp only
    rw [generateScripts_fields]
    cases lg <;> cases tst <;> cases esl <;> cases prt <;>
      rcases orm with _ | (_ | _ | _ | _) <;> decide

/-- A config with an explicit prisma adapter and no database, for the C6
witness. -/
def cfgNoDbPrisma : ProjectConfig :=
  { name := "shop", language := .ts, packageManager := .npm, style := .resource,
    database := Option.none, orm := some .prisma, auth := Option.none,
    testing := false, eslint := false, prettier := false, docker := false,
    git := false, light := false, boilerplateLevel := .full,
    includeValidation := true, swagger := Option.none }

/-- Witness for the C6 amended theorem at the no-database prisma config. -/
theorem no_database_no_model_artifact_witness :
    ((Artifact.model, "src/resources/post/model.ts") ∉
      resourceFileWrites cfgNoDbPrisma postNoEndpoints) ∧
    ((Artifact.prismaSchema, "prisma/schema.prisma") ∈ configFileWrites cfgNoDbPrisma ↔
      cfgNoDbPrisma.orm = some Orm.prisma) ∧
    ("db:generate" ∈ keysOf (generateScripts cfgNoDbPrisma) ↔
      cfgNoDbPrisma.orm = some Orm.prisma) :=
  no_database_no_model_artifact_prisma_keyed_on_orm cfgNoDbPrisma postNoEndpoints
    "src/resources/post/model.ts" rfl

end FasterExpress
